import Mathlib

/-!
Shallow embedding of the API request/response pipeline of the social-feed
client (src/services/api/client.ts) and of the feature services built on
it (src/services/posts/posts.ts, src/services/interactions/interactions.ts).

Effects are made explicit: the browser storage read by the client is a
`Storage` value, the outcome of `fetch` is a `FetchResult` value, and a
thrown JS error is a `JsError` value, so every function of the source
becomes a pure Lean function of those inputs.
-/

/-- JSON values, as produced by `response.json()` in the client. -/
inductive Json where
  | null : Json
  | bool (b : Bool) : Json
  | num (n : Int) : Json
  | str (s : String) : Json
  | arr (elems : List Json) : Json
  | obj (fields : List (String × Json)) : Json
deriving Repr

/-- JS property access `j.name` on a parsed JSON value: only objects have
own properties; on every other value the access yields `undefined`,
embedded as `none`. -/
def Json.getField : Json → String → Option Json
  | .obj fields, k => fields.lookup k
  | _, _ => none

/-- JS optional index access `v?.[0]`: the first element of an array, the
`"0"` property of an object, the first character of a string. -/
def Json.indexZero : Json → Option Json
  | .arr elems => elems.head?
  | .obj fields => fields.lookup "0"
  | .str s => if s == "" then none else some (.str (String.singleton s.front))
  | _ => none

/-- JS truthiness of a JSON value (`undefined` is handled by `Option` at
call sites): `null`, `false`, `0` and `""` are falsy; arrays and objects
are always truthy. -/
def Json.falsy : Json → Bool
  | .null => true
  | .bool b => !b
  | .num n => n == 0
  | .str s => s == ""
  | _ => false

mutual

/-- JS `String(v)` coercion as applied by the `Error` constructor to a
non-string message: arrays join their elements with commas, plain objects
print as `[object Object]`. -/
def Json.coerceToString : Json → String
  | .null => "null"
  | .bool b => if b then "true" else "false"
  | .num n => toString n
  | .str s => s
  | .arr elems => coerceElems elems
  | .obj _ => "[object Object]"

/-- Comma-joined coercion of the elements of a JS array. -/
def coerceElems : List Json → String
  | [] => ""
  | [j] => Json.coerceToString j
  | j :: rest => Json.coerceToString j ++ "," ++ coerceElems rest

end

/-- Does the character list start with the given prefix list? -/
def charsStartWith : List Char → List Char → Bool
  | _, [] => true
  | [], _ :: _ => false
  | c :: cs, d :: ds => c == d && charsStartWith cs ds

/-- Does the character list contain the given list as a contiguous run? -/
def charsContain : List Char → List Char → Bool
  | [], sub => sub.isEmpty
  | c :: cs, sub => charsStartWith (c :: cs) sub || charsContain cs sub

/-- JS `String.prototype.includes`: substring occurrence. -/
def jsIncludes (s sub : String) : Bool :=
  charsContain s.data sub.data

/-- JS `a || b` where `a` is a possibly-undefined string: the fallback is
taken when `a` is `undefined` or empty (falsy). -/
def jsOrString : Option String → String → String
  | none, d => d
  | some s, d => if s == "" then d else s

/-- JS `String.prototype.toLowerCase` on the ASCII range exercised by the
error messages of this codebase. -/
def jsToLower (s : String) : String :=
  String.mk (s.data.map Char.toLower)

/-- `responseData.errors?.[0]?.message` (client.ts line 86). -/
def errorsFirstMessage (j : Json) : Option Json :=
  ((j.getField "errors").bind Json.indexZero).bind (fun e => e.getField "message")

/-- The message picked for a non-2xx JSON response (client.ts lines 85–86):
`responseData.errors?.[0]?.message || `HTTP Error: <status>``, where the
JS `||` falls back on a falsy (absent, null, empty, zero, false) field. -/
def errorMessageOf (j : Json) (status : Nat) : String :=
  match errorsFirstMessage j with
  | some v => if v.falsy then "HTTP Error: " ++ toString status else v.coerceToString
  | none => "HTTP Error: " ++ toString status

/-- Outcome of `response.json()`: the promise may reject on a parse error. -/
inductive ParseOutcome where
  | fail
  | val (j : Json)
deriving Repr

/-- The part of a `fetch` `Response` the client observes. -/
structure HttpResponse where
  status : Nat
  contentType : Option String
  body : ParseOutcome
deriving Repr

/-- Outcome of `fetch`: rejection (network failure) or a response. -/
inductive FetchResult where
  | networkError
  | response (r : HttpResponse)
deriving Repr

/-- `Response.ok`: status in the range 200–299. -/
def responseOk (status : Nat) : Bool := 200 ≤ status && status < 300

/-- The empty/non-JSON test of client.ts lines 71–75:
`status === 204 || !contentType || !contentType.includes("application/json")`. -/
def emptyOrNonJson (r : HttpResponse) : Bool :=
  r.status == 204 ||
    (match r.contentType with
     | none => true
     | some ct => !(jsIncludes ct "application/json"))

/-- Failures arising inside the `try` block of `apiClient`: the two
`throw new ApiError(...)` sites, a rejected `fetch`, and a rejected
`response.json()`. -/
inductive InnerError where
  | fetchFailed
  | jsonParseFailed
  | api (message : String) (status : Nat)
deriving Repr

/-- A thrown JS error as observed by callers.  `apiError` embeds the
`ApiError` class.  Modelled from the spec: `src/services/error/error.ts`
is absent from the snapshot; per the spec's error taxonomy the typed API
error carries the HTTP status and the server message, and client.ts
constructs it as `new ApiError(message, status)`.  `plainError` embeds a
plain `new Error(message)`. -/
inductive JsError where
  | apiError (message : String) (status : Nat)
  | plainError (message : String)
deriving Repr, DecidableEq

/-- `error.message`. -/
def JsError.message : JsError → String
  | .apiError m _ => m
  | .plainError m => m

/-- `error.status`, present only on the typed `ApiError`. -/
def JsError.status : JsError → Option Nat
  | .apiError _ s => some s
  | .plainError _ => none

/-- `error.response?.status`: neither a plain `Error` nor `ApiError`
(which stores its status in the `status` field) defines a `response`
property, so this optional access always yields `undefined`. -/
def JsError.responseStatus : JsError → Option Nat := fun _ => none

/-- The body of the `try` block of `apiClient` (client.ts lines 65–90),
from the `fetch` outcome to the returned value or the raised failure. -/
def apiClientInner : FetchResult → Except InnerError (Option Json)
  | .networkError => .error .fetchFailed
  | .response r =>
    if emptyOrNonJson r then
      if !responseOk r.status then
        .error (.api ("HTTP Error: " ++ toString r.status) r.status)
      else
        .ok none
    else
      match r.body with
      | .fail => .error .jsonParseFailed
      | .val j =>
        if !responseOk r.status then
          .error (.api (errorMessageOf j r.status) r.status)
        else
          .ok (some j)

/-- The `catch` block of `apiClient` (client.ts lines 91–96): an `ApiError`
is re-thrown unchanged; any other exception is replaced by
`new Error("A network or client error occurred.")`. -/
def catchWrap : Except InnerError (Option Json) → Except JsError (Option Json)
  | .ok v => .ok v
  | .error (.api m s) => .error (.apiError m s)
  | .error .fetchFailed => .error (.plainError "A network or client error occurred.")
  | .error .jsonParseFailed => .error (.plainError "A network or client error occurred.")

/-- `apiClient`'s response handling: the try block composed with its catch. -/
def handleResponse (fr : FetchResult) : Except JsError (Option Json) :=
  catchWrap (apiClientInner fr)

/-- The browser storage the client reads through `getLocalItem`.
Modelled from the spec: `src/utils/storage.ts` is absent from the
snapshot; per the spec, the access token and the API key are opaque
strings persisted in client-side storage with no invariants beyond
presence/absence, and `localStorage.getItem` yields the stored string or
null (`none`). -/
structure Storage where
  apiKey : Option String
  accessToken : Option String

/-- A request body as passed to `apiClient` by the repository's callers:
either a `FormData` value (passed through unmodified) or a structured
value serialized to JSON. -/
inductive BodyVal where
  | formData (entries : List (String × String))
  | jsonObj (j : Json)
deriving Repr

/-- The `ApiClientOptions` argument of `apiClient`: an optional body, an
optional explicit method, and extra headers spread into the config. -/
structure ApiClientOptions where
  body : Option BodyVal := none
  method : Option String := none
  headers : List (String × String) := []

/-- JS object-key assignment `headers[k] = v` on a header object:
overwrite an existing entry, otherwise append. -/
def setHeader (hs : List (String × String)) (k v : String) : List (String × String) :=
  if hs.any (fun p => p.1 == k) then
    hs.map (fun p => if p.1 == k then (k, v) else p)
  else
    hs ++ [(k, v)]

/-- Header lookup. -/
def getHeader (hs : List (String × String)) (k : String) : Option String :=
  (hs.find? (fun p => p.1 == k)).map (fun p => p.2)

/-- Minimal JSON string escaping as performed by `JSON.stringify` on the
quote and backslash characters (control characters are not exercised by
the repository's payloads). -/
def jsonEscapeChar (c : Char) : String :=
  if c == '"' then "\\\"" else if c == '\\' then "\\\\" else String.singleton c

/-- Escape a string for inclusion in JSON text. -/
def jsonEscape (s : String) : String :=
  String.join (s.data.map jsonEscapeChar)

mutual

/-- `JSON.stringify` on a JSON value. -/
def Json.stringify : Json → String
  | .null => "null"
  | .bool b => if b then "true" else "false"
  | .num n => toString n
  | .str s => "\"" ++ jsonEscape s ++ "\""
  | .arr elems => "[" ++ stringifyElems elems ++ "]"
  | .obj fields => "\x7b" ++ stringifyFields fields ++ "\x7d"

/-- Comma-separated serialization of array elements. -/
def stringifyElems : List Json → String
  | [] => ""
  | [j] => Json.stringify j
  | j :: rest => Json.stringify j ++ "," ++ stringifyElems rest

/-- Comma-separated serialization of object fields. -/
def stringifyFields : List (String × Json) → String
  | [] => ""
  | [p] => "\"" ++ jsonEscape p.1 ++ "\":" ++ Json.stringify p.2
  | p :: rest =>
    "\"" ++ jsonEscape p.1 ++ "\":" ++ Json.stringify p.2 ++ "," ++ stringifyFields rest

end

/-- A serialized request body: `FormData` passed through, or JSON text. -/
inductive SerializedBody where
  | form (entries : List (String × String))
  | text (s : String)
deriving Repr

/-- Body serialization of client.ts lines 44–53. -/
def serializeBody : Option BodyVal → Option SerializedBody
  | none => none
  | some (.formData entries) => some (.form entries)
  | some (.jsonObj j) => some (.text j.stringify)

/-- The fixed API-key header name (client.ts line 24). -/
def API_KEY_HEADER : String := "X-Noroff-API-Key"

/-- The `RequestInit` config assembled by `apiClient`. -/
structure RequestConfig where
  method : String
  headers : List (String × String)
  body : Option SerializedBody

/-- The Content-Type step of `apiClient` (client.ts lines 44–53): set
`Content-Type: application/json` exactly when a structured body is
serialized to JSON (`FormData` passes through with no header). -/
def contentTypeStep (custom : List (String × String)) (body : Option BodyVal) :
    List (String × String) :=
  match body with
  | some (.jsonObj _) => setHeader custom "Content-Type" "application/json"
  | _ => custom

/-- The API-key attachment of client.ts lines 59–60: `if (apiKey)` — a
missing or empty stored key attaches nothing. -/
def apiKeyStep (hs : List (String × String)) (st : Storage) :
    List (String × String) :=
  match st.apiKey with
  | some k => if k == "" then hs else setHeader hs API_KEY_HEADER k
  | none => hs

/-- The bearer-token attachment of client.ts lines 61–63:
`if (accessToken)` — a missing or empty stored token attaches nothing. -/
def tokenStep (hs : List (String × String)) (st : Storage) :
    List (String × String) :=
  match st.accessToken with
  | some t => if t == "" then hs else setHeader hs "Authorization" ("Bearer " ++ t)
  | none => hs

/-- Header assembly of `apiClient` (client.ts lines 33–63): spread the
custom headers, add `Content-Type` for a JSON body, then attach the API
key and the bearer token from storage when present. -/
def buildHeaders (custom : List (String × String)) (body : Option BodyVal)
    (st : Storage) : List (String × String) :=
  tokenStep (apiKeyStep (contentTypeStep custom body) st) st

/-- The config built by `apiClient` (client.ts lines 30–63): the method
defaults to POST exactly when a body is present, an explicit method in
the options overrides the default; headers and body as in the source. -/
def buildConfig (options : ApiClientOptions) (st : Storage) : RequestConfig :=
  { method := options.method.getD (if options.body.isSome then "POST" else "GET")
    headers := buildHeaders options.headers options.body st
    body := serializeBody options.body }

/-- A dispatched request: the endpoint passed to `apiClient` (the fixed
base URL prefix is applied at the `fetch` call) and the built config. -/
structure Request where
  endpoint : String
  config : RequestConfig

/-- The request `apiClient endpoint options` hands to `fetch`. -/
def apiClientRequest (endpoint : String) (options : ApiClientOptions)
    (st : Storage) : Request :=
  { endpoint := endpoint, config := buildConfig options st }

/-- The `get` helper (client.ts line 103): `apiClient` with no options. -/
def getRequest (endpoint : String) (st : Storage) : Request :=
  apiClientRequest endpoint {} st

/-- The `post` helper (client.ts line 109): explicit POST with a body. -/
def postRequest (endpoint : String) (body : Json) (st : Storage) : Request :=
  apiClientRequest endpoint { method := some "POST", body := some (.jsonObj body) } st

/-- The `put` helper (client.ts line 115): explicit PUT with a body. -/
def putRequest (endpoint : String) (body : Json) (st : Storage) : Request :=
  apiClientRequest endpoint { method := some "PUT", body := some (.jsonObj body) } st

/-- The `del` helper (client.ts line 121): explicit DELETE, no body. -/
def delRequest (endpoint : String) (st : Storage) : Request :=
  apiClientRequest endpoint { method := some "DELETE" } st

/-- Uppercase hexadecimal digit for percent-encoding. -/
def hexDigit (n : Nat) : Char :=
  if n < 10 then Char.ofNat (48 + n) else Char.ofNat (55 + n)

/-- Percent-encode one byte. -/
def percentByte (b : Nat) : String :=
  "%" ++ String.singleton (hexDigit (b / 16)) ++ String.singleton (hexDigit (b % 16))

/-- One character of `URLSearchParams.toString()` output
(application/x-www-form-urlencoded): alphanumerics and `*-._` kept,
space as `+`, anything else percent-encoded bytewise over UTF-8. -/
def formEncodeChar (c : Char) : String :=
  if c.isAlphanum || c == '*' || c == '-' || c == '.' || c == '_' then
    String.singleton c
  else if c == ' ' then "+"
  else String.join (((String.singleton c).toUTF8.toList).map (fun b => percentByte b.toNat))

/-- Form-encode a full string. -/
def formEncode (s : String) : String := String.join (s.data.map formEncodeChar)

/-- `new URLSearchParams(pairs).toString()`: `k=v` joined by `&` in
insertion order. -/
def urlSearchParams (ps : List (String × String)) : String :=
  String.intercalate "&" (ps.map (fun p => formEncode p.1 ++ "=" ++ formEncode p.2))

/-- `encodeURIComponent`: the unreserved characters
`A–Z a–z 0–9 - _ . ! ~ * ( )` and the apostrophe are kept, everything
else is percent-encoded bytewise over UTF-8. -/
def encodeURIComponent (s : String) : String :=
  String.join (s.data.map (fun c =>
    if c.isAlphanum || c == '-' || c == '_' || c == '.' || c == '!' || c == '~'
        || c == '*' || c == Char.ofNat 39 || c == '(' || c == ')' then
      String.singleton c
    else
      String.join (((String.singleton c).toUTF8.toList).map (fun b => percentByte b.toNat))))

/-- The endpoint requested by `getAllPosts` (posts.ts lines 64–74). -/
def getAllPostsEndpoint (limit page : Nat) : String :=
  "/social/posts?" ++ urlSearchParams
    [("limit", toString limit), ("page", toString page),
     ("_author", "true"), ("_reactions", "true"), ("_comments", "true")]

/-- The request issued by `getAllPosts` through the `get` helper. -/
def getAllPostsRequest (limit page : Nat) (st : Storage) : Request :=
  getRequest (getAllPostsEndpoint limit page) st

/-- The result of `getAllPosts` (posts.ts lines 72–80): its catch block
only logs and rethrows, so the client's result passes through verbatim. -/
def getAllPostsResult (fr : FetchResult) : Except JsError (Option Json) :=
  handleResponse fr

/-- The `commentData` object built by `createComment` (interactions.ts
lines 116–120): `\x7b body \x7d`, with `replyToId` added only when the
argument is supplied and truthy. -/
def commentData (body : String) (replyToId : Option String) : Json :=
  match replyToId with
  | some r =>
    if r == "" then Json.obj [("body", .str body)]
    else Json.obj [("body", .str body), ("replyToId", .str r)]
  | none => Json.obj [("body", .str body)]

/-- The endpoint `createComment` posts to. -/
def createCommentEndpoint (postId : String) : String :=
  "/social/posts/" ++ postId ++ "/comment"

/-- The request issued by `createComment` through the `post` helper. -/
def createCommentRequest (postId body : String) (replyToId : Option String)
    (st : Storage) : Request :=
  postRequest (createCommentEndpoint postId) (commentData body replyToId) st

/-- The endpoint `getPostComments` requests (interactions.ts line 66). -/
def getPostCommentsEndpoint (postId : String) (page limit : Nat) : String :=
  "/social/posts/" ++ postId ++ "/comments?page=" ++ toString page ++
    "&limit=" ++ toString limit ++ "&_author=true"

/-- The literal empty `CommentsResponse` that `getPostComments` returns on
a missing `data` field or on an error (interactions.ts lines 70–100). -/
def emptyCommentsResponse : Json :=
  Json.obj
    [("data", .arr []),
     ("meta", .obj
       [("isFirstPage", .bool true), ("isLastPage", .bool true),
        ("currentPage", .num 1), ("previousPage", .null),
        ("nextPage", .null), ("pageCount", .num 1), ("totalCount", .num 0)])]

/-- `getPostComments` (interactions.ts lines 59–102) as a function of the
underlying `fetch` outcome: a raised error is swallowed and a response
without a truthy `data` field is replaced, in both cases by the empty
structure; the function itself never raises. -/
def getPostComments (fr : FetchResult) : Json :=
  match handleResponse fr with
  | .error _ => emptyCommentsResponse
  | .ok none => emptyCommentsResponse
  | .ok (some j) =>
    match j.getField "data" with
    | some v => if v.falsy then emptyCommentsResponse else j
    | none => emptyCommentsResponse

/-- The endpoint `getPostReactions` requests (interactions.ts line 295). -/
def getPostReactionsEndpoint (postId : String) : String :=
  "/social/posts/" ++ postId ++ "?_reactions=true"

/-- `getPostReactions` (interactions.ts lines 292–302):
`response?.data || []` on success and `[]` on any raised error. -/
def getPostReactions (fr : FetchResult) : Json :=
  match handleResponse fr with
  | .error _ => .arr []
  | .ok none => .arr []
  | .ok (some j) =>
    match j.getField "data" with
    | some v => if v.falsy then .arr [] else v
    | none => .arr []

/-- The endpoint of the react/remove-reaction pair. -/
def reactEndpoint (postId symbol : String) : String :=
  "/social/posts/" ++ postId ++ "/react/" ++ encodeURIComponent symbol

/-- The request issued by `reactToPost`: a PUT with an empty object body. -/
def reactToPostRequest (postId symbol : String) (st : Storage) : Request :=
  putRequest (reactEndpoint postId symbol) (Json.obj []) st

/-- The request issued by `removeReaction`: a DELETE. -/
def removeReactionRequest (postId symbol : String) (st : Storage) : Request :=
  delRequest (reactEndpoint postId symbol) st

/-- `reactToPost` (interactions.ts lines 199–221): any failure of the
underlying `put` is re-thrown as a plain `Error` whose message is
rewritten by case-insensitive substring matching on "unauthorized" and
"not found", else kept (with a fixed fallback when it is empty). -/
def reactToPost (fr : FetchResult) : Except JsError (Option Json) :=
  match handleResponse fr with
  | .ok v => .ok v
  | .error e =>
    if jsIncludes (jsToLower e.message) "unauthorized" then
      .error (.plainError "You must be logged in to react to posts.")
    else if jsIncludes (jsToLower e.message) "not found" then
      .error (.plainError "The post you are trying to react to was not found.")
    else
      .error (.plainError (jsOrString (some e.message) "Failed to react to post. Please try again."))

/-- `removeReaction` (interactions.ts lines 229–248): same rewrapping with
its own messages. -/
def removeReaction (fr : FetchResult) : Except JsError (Option Json) :=
  match handleResponse fr with
  | .ok v => .ok v
  | .error e =>
    if jsIncludes (jsToLower e.message) "unauthorized" then
      .error (.plainError "You must be logged in to remove reactions.")
    else if jsIncludes (jsToLower e.message) "not found" then
      .error (.plainError "The reaction you are trying to remove was not found.")
    else
      .error (.plainError (jsOrString (some e.message) "Failed to remove reaction. Please try again."))

/-- `toggleReaction` (interactions.ts lines 256–285): try the add; on a
failure whose message contains "already"/"exist" or whose
`response?.status` is 400/409, fall back to the remove call (returning
false on its success, rethrowing its error); otherwise rethrow.
`addFetch`/`removeFetch` are the `fetch` outcomes of the two underlying
requests, the second consulted only on fallback. -/
def toggleReaction (addFetch removeFetch : FetchResult) : Except JsError Bool :=
  match reactToPost addFetch with
  | .ok _ => .ok true
  | .error e =>
    if jsIncludes e.message "already" || jsIncludes e.message "exist" ||
        e.responseStatus == some 400 || e.responseStatus == some 409 then
      match removeReaction removeFetch with
      | .ok _ => .ok false
      | .error re => .error re
    else
      .error e

/-- A media attachment or avatar: url plus alt text. -/
structure Media where
  url : String
  alt : String
deriving Repr, DecidableEq

/-- A post author (posts.ts `NoroffPost.author`). -/
structure PostAuthor where
  name : String
  email : String
  bio : Option String
  avatar : Option Media
deriving Repr, DecidableEq

/-- The `_count` aggregate of a post. -/
structure PostCounts where
  comments : Nat
  reactions : Nat
deriving Repr, DecidableEq

/-- One reaction tally on a post. -/
structure ReactionCount where
  symbol : String
  count : Nat
deriving Repr, DecidableEq

/-- A post of the Noroff API as declared in posts.ts (`NoroffPost`). -/
structure NoroffPost where
  id : Nat
  title : String
  body : String
  tags : List String
  media : Option Media
  created : String
  updated : String
  author : PostAuthor
  count : PostCounts
  reactions : List ReactionCount
deriving Repr, DecidableEq

/-- Pagination metadata (`PostsApiResponse.meta`). -/
structure PageMeta where
  currentPage : Nat
  pageCount : Nat
  totalCount : Nat
  isFirstPage : Bool
  isLastPage : Bool
  previousPage : Option Nat
  nextPage : Option Nat
deriving Repr, DecidableEq

/-- The response shape of the posts service (`PostsApiResponse`). -/
structure PostsApiResponse where
  data : List NoroffPost
  meta : PageMeta
deriving Repr, DecidableEq

/-- `Math.ceil(a / b)` on natural numbers, for positive `b`. -/
def ceilDiv (a b : Nat) : Nat := (a + b - 1) / b

/-- The five hardcoded sample posts of `getSamplePosts` (posts.ts lines
105–247).  `now` is `Date.now()` in milliseconds and `isoOf` the
runtime's `Date.prototype.toISOString` on a millisecond timestamp. -/
def samplePosts (now : Int) (isoOf : Int → String) : List NoroffPost :=
  [{ id := 1
     title := "Welcome to Social Platform"
     body := "Explore and connect with people around the world. Share your thoughts, experiences, and discover new content every day."
     tags := ["welcome", "social", "community"]
     media := some { url := "https://images.unsplash.com/photo-1522202176988-66273c2fd55f?ixlib=rb-4.0.3&auto=format&fit=crop&w=1200&q=80", alt := "People connecting" }
     created := isoOf (now - 86400000)
     updated := isoOf (now - 86400000)
     author := { name := "social_admin", email := "admin@social.com"
                 bio := some "Official Social Platform Account"
                 avatar := some { url := "https://images.unsplash.com/photo-1472099645785-5658abf4ff4e?ixlib=rb-4.0.3&auto=format&fit=crop&w=400&q=80", alt := "Admin avatar" } }
     count := { comments := 12, reactions := 45 }
     reactions := [{ symbol := "👍", count := 28 }, { symbol := "❤️", count := 17 }] },
   { id := 2
     title := "Beautiful sunset today"
     body := "Caught this amazing sunset while walking in the park. Nature never fails to amaze me! 🌅"
     tags := ["sunset", "nature", "photography"]
     media := some { url := "https://images.unsplash.com/photo-1506905925346-21bda4d32df4?ixlib=rb-4.0.3&auto=format&fit=crop&w=1200&q=80", alt := "Beautiful sunset" }
     created := isoOf (now - 172800000)
     updated := isoOf (now - 172800000)
     author := { name := "nature_lover", email := "nature@example.com"
                 bio := some "Nature photographer and outdoor enthusiast"
                 avatar := some { url := "https://images.unsplash.com/photo-1494790108755-2616b612b830?ixlib=rb-4.0.3&auto=format&fit=crop&w=400&q=80", alt := "Nature lover avatar" } }
     count := { comments := 8, reactions := 32 }
     reactions := [{ symbol := "🌅", count := 15 }, { symbol := "❤️", count := 17 }] },
   { id := 3
     title := "Learning TypeScript"
     body := "Just started learning TypeScript and I'm loving the type safety it provides. Any tips for a beginner?"
     tags := ["typescript", "programming", "learning"]
     media := none
     created := isoOf (now - 259200000)
     updated := isoOf (now - 259200000)
     author := { name := "dev_beginner", email := "developer@example.com"
                 bio := some "Junior developer passionate about web technologies"
                 avatar := some { url := "https://images.unsplash.com/photo-1507003211169-0a1dd7228f2d?ixlib=rb-4.0.3&auto=format&fit=crop&w=400&q=80", alt := "Developer avatar" } }
     count := { comments := 15, reactions := 28 }
     reactions := [{ symbol := "💻", count := 20 }, { symbol := "👍", count := 8 }] },
   { id := 4
     title := "Coffee and code"
     body := "Perfect morning routine: fresh coffee and coding. What's your favorite coding fuel? ☕"
     tags := ["coffee", "coding", "morning"]
     media := some { url := "https://images.unsplash.com/photo-1461749280684-dccba630e2f6?ixlib=rb-4.0.3&auto=format&fit=crop&w=1200&q=80", alt := "Coffee and laptop" }
     created := isoOf (now - 345600000)
     updated := isoOf (now - 345600000)
     author := { name := "coffee_coder", email := "coffee@example.com"
                 bio := some "Full-stack developer fueled by caffeine"
                 avatar := some { url := "https://images.unsplash.com/photo-1560250097-0b93528c311a?ixlib=rb-4.0.3&auto=format&fit=crop&w=400&q=80", alt := "Coffee coder avatar" } }
     count := { comments := 6, reactions := 22 }
     reactions := [{ symbol := "☕", count := 18 }, { symbol := "💻", count := 4 }] },
   { id := 5
     title := "Weekend hiking adventure"
     body := "Explored some new trails this weekend. The views were absolutely breathtaking! Already planning the next adventure. 🏔️"
     tags := ["hiking", "adventure", "weekend"]
     media := some { url := "https://images.unsplash.com/photo-1551632811-561732d1e306?ixlib=rb-4.0.3&auto=format&fit=crop&w=1200&q=80", alt := "Mountain hiking trail" }
     created := isoOf (now - 432000000)
     updated := isoOf (now - 432000000)
     author := { name := "trail_explorer", email := "hiker@example.com"
                 bio := some "Weekend warrior and mountain enthusiast"
                 avatar := some { url := "https://images.unsplash.com/photo-1535713875002-d1d0cf377fde?ixlib=rb-4.0.3&auto=format&fit=crop&w=400&q=80", alt := "Hiker avatar" } }
     count := { comments := 10, reactions := 35 }
     reactions := [{ symbol := "🏔️", count := 20 }, { symbol := "👍", count := 15 }] }]

/-- `getSamplePosts` (posts.ts lines 104–266): slice the sample list by
`[(page-1)*limit, (page-1)*limit + limit)` and compute the meta from the
full list's length. -/
def getSamplePosts (limit page : Nat) (now : Int) (isoOf : Int → String) :
    PostsApiResponse :=
  let posts := samplePosts now isoOf
  let startIndex := (page - 1) * limit
  let paginatedPosts := (posts.drop startIndex).take limit
  { data := paginatedPosts
    meta :=
      { currentPage := page
        pageCount := ceilDiv posts.length limit
        totalCount := posts.length
        isFirstPage := page == 1
        isLastPage := decide (page ≥ ceilDiv posts.length limit)
        previousPage := if page > 1 then some (page - 1) else none
        nextPage := if page < ceilDiv posts.length limit then some (page + 1) else none } }

/-- `getPublicPosts` (posts.ts lines 89–96): no API request is made; the
sample posts are returned directly. -/
def getPublicPosts (limit page : Nat) (now : Int) (isoOf : Int → String) :
    PostsApiResponse :=
  getSamplePosts limit page now isoOf

/-- Assigning a key absent from the head of a header object commutes with
the head. -/
theorem setHeader_cons_ne (p : String × String) (t : List (String × String))
    (k v : String) (hp : (p.1 == k) = false) :
    setHeader (p :: t) k v = p :: setHeader t k v := by
  cases ht : t.any (fun q => q.1 == k) with
  | true =>
    have hany : ((p :: t).any fun q => q.1 == k) = true := by
      simp [List.any_cons, hp, ht]
    have hfp : (if (p.1 == k) = true then (k, v) else p) = p := by simp [hp]
    simp only [setHeader, hany, ht, if_true, List.map_cons, hfp]
  | false => simp [setHeader, List.any_cons, hp, ht]

/-- Reading back the header just assigned. -/
theorem getHeader_setHeader_self (hs : List (String × String)) (k v : String) :
    getHeader (setHeader hs k v) k = some v := by
  induction hs with
  | nil => simp [setHeader, getHeader]
  | cons p t ih =>
    cases hp : (p.1 == k) with
    | true =>
      have hany : ((p :: t).any (fun q => q.1 == k)) = true := by
        simp [List.any_cons, hp]
      simp only [setHeader, hany, if_true, List.map_cons, hp]
      simp [getHeader, List.find?_cons_of_pos]
    | false =>
      rw [setHeader_cons_ne p t k v hp]
      unfold getHeader
      rw [List.find?_cons_of_neg _ (by simp [hp])]
      exact ih

/-- Overwriting the entry at `k` does not change lookups at other keys. -/
theorem find?_map_setKey (t : List (String × String)) (k v k' : String)
    (hkk : (k == k') = false) :
    ((t.map (fun p => if p.1 == k then (k, v) else p)).find? (fun p => p.1 == k')) =
      t.find? (fun p => p.1 == k') := by
  induction t with
  | nil => rfl
  | cons q r ih =>
    cases hq : (q.1 == k) with
    | true =>
      have hq2 : (q.1 == k') = false := by
        rw [beq_iff_eq.mp hq]; exact hkk
      have hfq : (if (q.1 == k) = true then (k, v) else q) = (k, v) := by simp [hq]
      simp only [List.map_cons, hfq]
      rw [List.find?_cons_of_neg _ (by simp [hkk]), List.find?_cons_of_neg _ (by simp [hq2])]
      exact ih
    | false =>
      have hfq : (if (q.1 == k) = true then (k, v) else q) = q := by simp [hq]
      simp only [List.map_cons, hfq]
      cases hq' : (q.1 == k') with
      | true => simp [List.find?_cons, hq']
      | false =>
        simp only [List.find?_cons, hq']
        exact ih

/-- Assigning one key does not change lookups at another key. -/
theorem getHeader_setHeader_ne (hs : List (String × String)) (k v k' : String)
    (hne : k ≠ k') :
    getHeader (setHeader hs k v) k' = getHeader hs k' := by
  have hkk : (k == k') = false := beq_eq_false_iff_ne.mpr hne
  unfold setHeader
  cases hany : hs.any (fun p => p.1 == k) with
  | true =>
    simp only [hany, if_true]
    unfold getHeader
    rw [find?_map_setKey hs k v k' hkk]
  | false =>
    rw [if_neg (by simp [hany])]
    unfold getHeader
    rw [List.find?_append]
    have hone : List.find? (fun p => p.1 == k') [(k, v)] = none := by
      rw [List.find?_cons_of_neg _ (by simp [hkk])]
      rfl
    rw [hone]
    cases hs.find? (fun p => p.1 == k') <;> rfl

/-- `contentTypeStep` only ever writes the Content-Type header. -/
theorem getHeader_contentTypeStep (custom : List (String × String))
    (body : Option BodyVal) (key : String) (hk : "Content-Type" ≠ key) :
    getHeader (contentTypeStep custom body) key = getHeader custom key := by
  cases body with
  | none => rfl
  | some bv =>
    cases bv with
    | formData es => rfl
    | jsonObj j => exact getHeader_setHeader_ne _ _ _ _ hk

/-- `apiKeyStep` only ever writes the API-key header. -/
theorem getHeader_apiKeyStep_other (hs : List (String × String)) (st : Storage)
    (key : String) (hk : API_KEY_HEADER ≠ key) :
    getHeader (apiKeyStep hs st) key = getHeader hs key := by
  cases hko : st.apiKey with
  | none => simp [apiKeyStep, hko]
  | some k =>
    by_cases hke : (k == "") = true
    · simp [apiKeyStep, hko, hke]
    · simp only [apiKeyStep, hko]
      rw [if_neg hke]
      exact getHeader_setHeader_ne _ _ _ _ hk

/-- `tokenStep` only ever writes the Authorization header. -/
theorem getHeader_tokenStep_other (hs : List (String × String)) (st : Storage)
    (key : String) (hk : "Authorization" ≠ key) :
    getHeader (tokenStep hs st) key = getHeader hs key := by
  cases hto : st.accessToken with
  | none => simp [tokenStep, hto]
  | some t =>
    by_cases hte : (t == "") = true
    · simp [tokenStep, hto, hte]
    · simp only [tokenStep, hto]
      rw [if_neg hte]
      exact getHeader_setHeader_ne _ _ _ _ hk

/-- A nonempty stored API key is attached by `apiKeyStep`. -/
theorem getHeader_apiKeyStep_self (hs : List (String × String)) (st : Storage)
    (k : String) (hk : st.apiKey = some k) (hne : k ≠ "") :
    getHeader (apiKeyStep hs st) API_KEY_HEADER = some k := by
  simp only [apiKeyStep, hk]
  rw [if_neg (by simp [beq_eq_false_iff_ne.mpr hne])]
  exact getHeader_setHeader_self _ _ _

/-- A nonempty stored token is attached by `tokenStep`. -/
theorem getHeader_tokenStep_self (hs : List (String × String)) (st : Storage)
    (t : String) (ht : st.accessToken = some t) (hne : t ≠ "") :
    getHeader (tokenStep hs st) "Authorization" = some ("Bearer " ++ t) := by
  simp only [tokenStep, ht]
  rw [if_neg (by simp [beq_eq_false_iff_ne.mpr hne])]
  exact getHeader_setHeader_self _ _ _

/-- An absent token attaches nothing. -/
theorem tokenStep_none (hs : List (String × String)) (st : Storage)
    (ht : st.accessToken = none) : tokenStep hs st = hs := by
  simp [tokenStep, ht]

/-- An absent API key attaches nothing. -/
theorem apiKeyStep_none (hs : List (String × String)) (st : Storage)
    (hk : st.apiKey = none) : apiKeyStep hs st = hs := by
  simp [apiKeyStep, hk]

/-- C2: every request built by the API client carries
`Authorization: Bearer <token>` when a (nonempty) access token is stored,
and the fixed `X-Noroff-API-Key` header when a (nonempty) API key is
stored; the two may coexist on one request (the first two conjuncts hold
simultaneously when both are stored); absence of either raises no error —
the config is still built, just without that header. -/
theorem claim_C2_auth_header_injection (options : ApiClientOptions) (st : Storage) :
    (∀ t, st.accessToken = some t → t ≠ "" →
      getHeader (buildConfig options st).headers "Authorization" = some ("Bearer " ++ t)) ∧
    (∀ k, st.apiKey = some k → k ≠ "" →
      getHeader (buildConfig options st).headers API_KEY_HEADER = some k) ∧
    (st.accessToken = none → getHeader options.headers "Authorization" = none →
      getHeader (buildConfig options st).headers "Authorization" = none) ∧
    (st.apiKey = none → getHeader options.headers API_KEY_HEADER = none →
      getHeader (buildConfig options st).headers API_KEY_HEADER = none) := by
  have hbc : (buildConfig options st).headers =
      tokenStep (apiKeyStep (contentTypeStep options.headers options.body) st) st := rfl
  refine ⟨?_, ?_, ?_, ?_⟩
  · intro t ht hne
    rw [hbc]
    exact getHeader_tokenStep_self _ _ _ ht hne
  · intro k hk hne
    rw [hbc, getHeader_tokenStep_other _ _ _ (by decide)]
    exact getHeader_apiKeyStep_self _ _ _ hk hne
  · intro ht hc
    rw [hbc, tokenStep_none _ _ ht, getHeader_apiKeyStep_other _ _ _ (by decide),
      getHeader_contentTypeStep _ _ _ (by decide)]
    exact hc
  · intro hk hc
    rw [hbc, getHeader_tokenStep_other _ _ _ (by decide), apiKeyStep_none _ _ hk,
      getHeader_contentTypeStep _ _ _ (by decide)]
    exact hc

/-- Witness for C2 at a concrete storage and empty options. -/
theorem claim_C2_witness :
    getHeader (buildConfig {} { apiKey := some "KEY", accessToken := some "TOKEN" }).headers
        "Authorization" = some ("Bearer " ++ "TOKEN") ∧
    getHeader (buildConfig {} { apiKey := some "KEY", accessToken := some "TOKEN" }).headers
        API_KEY_HEADER = some "KEY" ∧
    getHeader (buildConfig {} { apiKey := none, accessToken := none }).headers
        "Authorization" = none :=
  ⟨(claim_C2_auth_header_injection {} { apiKey := some "KEY", accessToken := some "TOKEN" }).1
      "TOKEN" rfl (by decide),
   (claim_C2_auth_header_injection {} { apiKey := some "KEY", accessToken := some "TOKEN" }).2.1
      "KEY" rfl (by decide),
   (claim_C2_auth_header_injection {} { apiKey := none, accessToken := none }).2.2.1 rfl rfl⟩

/-- C6: method selection in `apiClient` — a supplied body defaults the
method to POST, an explicit method in the options overrides the default,
and with neither a body nor a method the request is a GET. -/
theorem claim_C6_method_selection (options : ApiClientOptions) (st : Storage) :
    (options.method = none → options.body.isSome = true →
      (buildConfig options st).method = "POST") ∧
    (∀ m, options.method = some m → (buildConfig options st).method = m) ∧
    (options.method = none → options.body = none →
      (buildConfig options st).method = "GET") := by
  refine ⟨?_, ?_, ?_⟩
  · intro hm hb
    simp [buildConfig, hm, hb]
  · intro m hm
    simp [buildConfig, hm]
  · intro hm hb
    simp [buildConfig, hm, hb]

/-- Witness for C6 at concrete options. -/
theorem claim_C6_witness :
    (buildConfig { body := some (.jsonObj (.obj [])) }
      { apiKey := none, accessToken := none }).method = "POST" ∧
    (buildConfig { method := some "PUT", body := some (.jsonObj (.obj [])) }
      { apiKey := none, accessToken := none }).method = "PUT" ∧
    (buildConfig {} { apiKey := none, accessToken := none }).method = "GET" :=
  ⟨(claim_C6_method_selection { body := some (.jsonObj (.obj [])) }
      { apiKey := none, accessToken := none }).1 rfl rfl,
   (claim_C6_method_selection { method := some "PUT", body := some (.jsonObj (.obj [])) }
      { apiKey := none, accessToken := none }).2.1 "PUT" rfl,
   (claim_C6_method_selection {} { apiKey := none, accessToken := none }).2.2 rfl rfl⟩

/-- C3: for a response with status 204 or a non-JSON (or missing) content
type, JSON parsing is never attempted: a successful status yields the
null result, and a failing status raises the typed API error carrying
that HTTP status. -/
theorem claim_C3_empty_or_non_json (r : HttpResponse)
    (h : r.status = 204 ∨ r.contentType = none ∨
      (∃ ct, r.contentType = some ct ∧ jsIncludes ct "application/json" = false)) :
    (responseOk r.status = true → handleResponse (.response r) = .ok none) ∧
    (responseOk r.status = false →
      handleResponse (.response r) =
        .error (.apiError ("HTTP Error: " ++ toString r.status) r.status)) := by
  have he : emptyOrNonJson r = true := by
    unfold emptyOrNonJson
    rcases h with h204 | hct | ⟨ct, hct, hinc⟩
    · simp [h204]
    · simp [hct]
    · simp [hct, hinc]
  constructor
  · intro hok
    simp [handleResponse, apiClientInner, he, hok, catchWrap]
  · intro hok
    simp [handleResponse, apiClientInner, he, hok, catchWrap]

/-- Witness for C3: a 204 success yields null, a 404 with no content type
raises the typed error with status 404. -/
theorem claim_C3_witness :
    handleResponse (.response { status := 204, contentType := none, body := .fail }) =
      .ok none ∧
    handleResponse (.response { status := 404, contentType := none, body := .fail }) =
      .error (.apiError ("HTTP Error: " ++ toString 404) 404) :=
  ⟨(claim_C3_empty_or_non_json _ (Or.inl rfl)).1 rfl,
   (claim_C3_empty_or_non_json _ (Or.inr (Or.inl rfl))).2 rfl⟩

/-- C4 counterexample: a 400 JSON response whose body does have an
`errors[0].message` field — equal to the empty string — is reported with
the fallback message "HTTP Error: 400", not with that field's value, so
the claim's first implication fails as stated. -/
theorem claim_C4_counterexample :
    errorsFirstMessage (Json.obj [("errors", .arr [.obj [("message", .str "")]])]) =
      some (.str "") ∧
    handleResponse (.response
      { status := 400
        contentType := some "application/json"
        body := .val (.obj [("errors", .arr [.obj [("message", .str "")]])]) }) =
      .error (.apiError "HTTP Error: 400" 400) ∧
    ("HTTP Error: 400" : String) ≠ "" := by
  refine ⟨rfl, rfl, by decide⟩

/-- C4 (amended): for a non-2xx JSON response the typed API error carries
the HTTP status; its message equals `errors[0].message` whenever that
field is a non-empty string; the fallback "HTTP Error: <status>" is used
when the body has no `errors` field, and also — as the counterexample
forces — when the message field is the empty string. -/
theorem claim_C4_non2xx_json_error (r : HttpResponse) (j : Json)
    (hct : r.contentType = some "application/json")
    (hbody : r.body = .val j)
    (h204 : r.status ≠ 204)
    (hok : responseOk r.status = false) :
    (∀ m, errorsFirstMessage j = some (.str m) → m ≠ "" →
      handleResponse (.response r) = .error (.apiError m r.status)) ∧
    (j.getField "errors" = none →
      handleResponse (.response r) =
        .error (.apiError ("HTTP Error: " ++ toString r.status) r.status)) ∧
    (errorsFirstMessage j = some (.str "") →
      handleResponse (.response r) =
        .error (.apiError ("HTTP Error: " ++ toString r.status) r.status)) := by
  have h1 : (r.status == 204) = false := beq_eq_false_iff_ne.mpr h204
  have h2 : jsIncludes "application/json" "application/json" = true := by decide
  have he : emptyOrNonJson r = false := by
    simp [emptyOrNonJson, hct, h1, h2]
  have hmain : handleResponse (.response r) =
      .error (.apiError (errorMessageOf j r.status) r.status) := by
    simp [handleResponse, apiClientInner, he, hbody, hok, catchWrap]
  refine ⟨?_, ?_, ?_⟩
  · intro m hm hne
    rw [hmain]
    have hf : (Json.str m).falsy = false := by
      simp [Json.falsy, beq_eq_false_iff_ne.mpr hne]
    simp [errorMessageOf, hm, hf, Json.coerceToString]
  · intro hne
    rw [hmain]
    simp [errorMessageOf, errorsFirstMessage, hne]
  · intro hm
    rw [hmain]
    simp [errorMessageOf, hm, Json.falsy]

/-- Witness for C4: a 403 with message "Forbidden" surfaces that message;
a 500 with no errors array falls back to "HTTP Error: 500". -/
theorem claim_C4_witness :
    handleResponse (.response
      { status := 403
        contentType := some "application/json"
        body := .val (.obj [("errors", .arr [.obj [("message", .str "Forbidden")]])]) }) =
      .error (.apiError "Forbidden" 403) ∧
    handleResponse (.response
      { status := 500
        contentType := some "application/json"
        body := .val (.obj [("ok", .bool false)]) }) =
      .error (.apiError ("HTTP Error: " ++ toString 500) 500) :=
  ⟨(claim_C4_non2xx_json_error
      { status := 403
        contentType := some "application/json"
        body := .val (.obj [("errors", .arr [.obj [("message", .str "Forbidden")]])]) }
      (.obj [("errors", .arr [.obj [("message", .str "Forbidden")]])])
      rfl rfl (by decide) rfl).1 "Forbidden" rfl (by decide),
   (claim_C4_non2xx_json_error
      { status := 500
        contentType := some "application/json"
        body := .val (.obj [("ok", .bool false)]) }
      (.obj [("ok", .bool false)])
      rfl rfl (by decide) rfl).2.1 rfl⟩

/-- C5: the client's error taxonomy — an `ApiError` raised in the try
block is re-thrown unchanged by the catch, every other exception (fetch
rejection, JSON parse rejection) is replaced by the generic error with
the fixed opaque message, and consequently every rejection of the client
is either a typed API error or that single generic error. -/
theorem claim_C5_error_taxonomy (fr : FetchResult) :
    (∀ m s, catchWrap (.error (.api m s)) = .error (.apiError m s)) ∧
    catchWrap (.error .fetchFailed) =
      .error (.plainError "A network or client error occurred.") ∧
    catchWrap (.error .jsonParseFailed) =
      .error (.plainError "A network or client error occurred.") ∧
    (∀ e, handleResponse fr = .error e →
      (∃ m s, e = .apiError m s) ∨
        e = .plainError "A network or client error occurred.") := by
  refine ⟨fun m s => rfl, rfl, rfl, ?_⟩
  intro e he
  unfold handleResponse at he
  cases hi : apiClientInner fr with
  | ok v =>
    rw [hi] at he
    exact absurd he (by simp [catchWrap])
  | error ie =>
    rw [hi] at he
    cases ie with
    | fetchFailed =>
      right
      have h3 : (Except.error (JsError.plainError "A network or client error occurred.") :
          Except JsError (Option Json)) = .error e := he
      exact (Except.error.inj h3).symm
    | jsonParseFailed =>
      right
      have h3 : (Except.error (JsError.plainError "A network or client error occurred.") :
          Except JsError (Option Json)) = .error e := he
      exact (Except.error.inj h3).symm
    | api m s =>
      left
      refine ⟨m, s, ?_⟩
      have h3 : (Except.error (JsError.apiError m s) :
          Except JsError (Option Json)) = .error e := he
      exact (Except.error.inj h3).symm

/-- Witness for C5 at a network failure: the rejection is the generic
error. -/
theorem claim_C5_witness :
    (∃ m s, (JsError.plainError "A network or client error occurred.") = .apiError m s) ∨
      (JsError.plainError "A network or client error occurred.") =
        .plainError "A network or client error occurred." :=
  (claim_C5_error_taxonomy .networkError).2.2.2 _ rfl

/-- C1 counterexample: the server answers the duplicate add with HTTP 409
and message "Conflict"; the fallback remove is not taken — the thrown
errors carry no `response.status` property and "Conflict" contains
neither "already" nor "exist" — so the second toggle rethrows instead of
removing and returning false, even though the remove call would have
succeeded. -/
theorem claim_C1_counterexample :
    toggleReaction
      (.response
        { status := 409
          contentType := some "application/json"
          body := .val (.obj [("errors", .arr [.obj [("message", .str "Conflict")]])]) })
      (.response { status := 204, contentType := none, body := .fail }) =
      .error (.plainError "Conflict") ∧
    toggleReaction
      (.response
        { status := 409
          contentType := some "application/json"
          body := .val (.obj [("errors", .arr [.obj [("message", .str "Conflict")]])]) })
      (.response { status := 204, contentType := none, body := .fail }) ≠
      .ok false :=
  ⟨rfl, fun h => Except.noConfusion h⟩

/-- C1 (amended): the first toggle returns true whenever the add request
succeeds; the second toggle falls back to the remove call and returns
false when the duplicate-add rejection (status 400 or 409) carries a
message containing "already" or "exist" (and not rewritten by the
unauthorized/not-found matchers); a bare 400/409 status whose message
lacks those substrings is rethrown instead, because the thrown errors do
not expose the status under `response.status` where the toggle looks. -/
theorem claim_C1_toggle_reaction :
    (∀ addFetch removeFetch v, handleResponse addFetch = .ok v →
      toggleReaction addFetch removeFetch = .ok true) ∧
    (∀ addFetch removeFetch m s rv,
      handleResponse addFetch = .error (.apiError m s) →
      (s = 400 ∨ s = 409) →
      (jsIncludes m "already" = true ∨ jsIncludes m "exist" = true) →
      jsIncludes (jsToLower m) "unauthorized" = false →
      jsIncludes (jsToLower m) "not found" = false →
      m ≠ "" →
      handleResponse removeFetch = .ok rv →
      toggleReaction addFetch removeFetch = .ok false) := by
  constructor
  · intro addFetch removeFetch v h
    simp [toggleReaction, reactToPost, h]
  · intro addFetch removeFetch m s rv hadd hs hincl hunauth hnf hne hrm
    have hreact : reactToPost addFetch = .error (.plainError m) := by
      simp [reactToPost, hadd, JsError.message, hunauth, hnf, jsOrString,
        beq_eq_false_iff_ne.mpr hne]
    have hremove : removeReaction removeFetch = .ok rv := by
      simp [removeReaction, hrm]
    rcases hincl with hi | hi
    · simp [toggleReaction, hreact, hremove, JsError.message, hi]
    · simp [toggleReaction, hreact, hremove, JsError.message, hi]

/-- Witness for C1: a 201-created add returns true; a 400 duplicate-add
whose message contains "already", followed by a successful remove,
returns false. -/
theorem claim_C1_witness :
    toggleReaction (.response { status := 201, contentType := none, body := .fail })
      .networkError = .ok true ∧
    toggleReaction
      (.response
        { status := 400
          contentType := some "application/json"
          body := .val (.obj
            [("errors", .arr [.obj [("message", .str "You have already reacted")]])]) })
      (.response { status := 204, contentType := none, body := .fail }) = .ok false := by
  constructor
  · exact claim_C1_toggle_reaction.1 _ _ none rfl
  · exact claim_C1_toggle_reaction.2 _ _ "You have already reacted" 400 none rfl
      (Or.inl rfl) (Or.inl (by decide)) (by decide) (by decide) (by decide) rfl

/-- C7: `getAllPosts(15, 2)` requests exactly
`/social/posts?limit=15&page=2&_author=true&_reactions=true&_comments=true`
as a GET with no body, and passes the client's parsed response through
verbatim, with no post-processing. -/
theorem claim_C7_get_all_posts :
    getAllPostsEndpoint 15 2 =
      "/social/posts?limit=15&page=2&_author=true&_reactions=true&_comments=true" ∧
    (∀ st, (getAllPostsRequest 15 2 st).endpoint =
        "/social/posts?limit=15&page=2&_author=true&_reactions=true&_comments=true" ∧
      (getAllPostsRequest 15 2 st).config.method = "GET" ∧
      (getAllPostsRequest 15 2 st).config.body = none) ∧
    (∀ fr v, handleResponse fr = .ok v → getAllPostsResult fr = .ok v) := by
  refine ⟨rfl, ?_, ?_⟩
  · intro st
    exact ⟨rfl, rfl, rfl⟩
  · intro fr v h
    exact h

/-- Witness for C7: a 200 JSON response is passed through verbatim. -/
theorem claim_C7_witness :
    getAllPostsResult (.response
      { status := 200
        contentType := some "application/json"
        body := .val (.obj [("data", .arr []), ("meta", .obj [])]) }) =
      .ok (some (.obj [("data", .arr []), ("meta", .obj [])])) :=
  claim_C7_get_all_posts.2.2 _ _ rfl

/-- C8: `createComment("42", "hello", undefined)` posts to
`/social/posts/42/comment` a JSON body that is exactly the object with
the single field `body: "hello"`; in general, the `replyToId` field is
present in the body only when a `replyToId` argument was supplied. -/
theorem claim_C8_create_comment (st : Storage) :
    (createCommentRequest "42" "hello" none st).endpoint = "/social/posts/42/comment" ∧
    (createCommentRequest "42" "hello" none st).config.method = "POST" ∧
    commentData "hello" none = Json.obj [("body", .str "hello")] ∧
    (createCommentRequest "42" "hello" none st).config.body =
      some (.text (Json.stringify (Json.obj [("body", .str "hello")]))) ∧
    (∀ b, (commentData b none).getField "replyToId" = none) ∧
    (∀ b r s2, (commentData b r).getField "replyToId" = some (.str s2) → r = some s2) := by
  refine ⟨rfl, rfl, rfl, rfl, ?_, ?_⟩
  · intro b
    simp [commentData, Json.getField, List.lookup]
  · intro b r s2 h
    cases r with
    | none =>
      simp [commentData, Json.getField, List.lookup] at h
    | some rr =>
      by_cases hre : (rr == "") = true
      · rw [show commentData b (some rr) = Json.obj [("body", .str b)] by
          simp [commentData, hre]] at h
        simp [Json.getField, List.lookup] at h
      · rw [show commentData b (some rr) =
            Json.obj [("body", .str b), ("replyToId", .str rr)] by
          simp [commentData, hre]] at h
        simp [Json.getField, List.lookup] at h
        rw [h]

/-- Witness for C8: the concrete request, and the only-when-supplied
direction applied at a supplied `replyToId`. -/
theorem claim_C8_witness :
    (createCommentRequest "42" "hello" none { apiKey := none, accessToken := none }).endpoint =
      "/social/posts/42/comment" ∧
    (some "7" : Option String) = some "7" :=
  ⟨(claim_C8_create_comment { apiKey := none, accessToken := none }).1,
   (claim_C8_create_comment { apiKey := none, accessToken := none }).2.2.2.2.2
      "b" (some "7") "7" rfl⟩

/-- C9: when the comments fetch raises, or returns null, or returns a
body with no `data` field, `getPostComments` degrades to the literal
empty structure (empty data list; meta describing a single empty
first-and-last page with totalCount 0) instead of propagating; likewise
`getPostReactions` degrades to the empty list on a raised error. -/
theorem claim_C9_degrade_to_empty (fr : FetchResult) :
    (∀ e, handleResponse fr = .error e → getPostComments fr = emptyCommentsResponse) ∧
    (handleResponse fr = .ok none → getPostComments fr = emptyCommentsResponse) ∧
    (∀ j, handleResponse fr = .ok (some j) → j.getField "data" = none →
      getPostComments fr = emptyCommentsResponse) ∧
    emptyCommentsResponse.getField "data" = some (.arr []) ∧
    ((emptyCommentsResponse.getField "meta").bind (fun m => m.getField "totalCount") =
      some (.num 0)) ∧
    ((emptyCommentsResponse.getField "meta").bind (fun m => m.getField "isFirstPage") =
      some (.bool true)) ∧
    ((emptyCommentsResponse.getField "meta").bind (fun m => m.getField "isLastPage") =
      some (.bool true)) ∧
    ((emptyCommentsResponse.getField "meta").bind (fun m => m.getField "pageCount") =
      some (.num 1)) ∧
    (∀ e, handleResponse fr = .error e → getPostReactions fr = .arr []) := by
  refine ⟨?_, ?_, ?_, rfl, rfl, rfl, rfl, rfl, ?_⟩
  · intro e h
    simp [getPostComments, h]
  · intro h
    simp [getPostComments, h]
  · intro j h hd
    simp [getPostComments, h, hd]
  · intro e h
    simp [getPostReactions, h]

/-- Witness for C9 at a network failure. -/
theorem claim_C9_witness :
    getPostComments .networkError = emptyCommentsResponse ∧
    getPostReactions .networkError = .arr [] :=
  ⟨(claim_C9_degrade_to_empty .networkError).1 _ rfl,
   (claim_C9_degrade_to_empty .networkError).2.2.2.2.2.2.2.2 _ rfl⟩

/-- C10: `getPublicPosts` performs no API request (in this embedding it
is a pure function of no fetch outcome) and pages the five hardcoded
sample posts: data is the slice [(page-1)*limit, (page-1)*limit+limit) of
the sample list, totalCount is 5, pageCount is ceil(5/limit), isFirstPage
iff page = 1, isLastPage iff page ≥ pageCount, and previous/next page are
the adjacent page numbers or null at the boundaries. -/
theorem claim_C10_get_public_posts (limit page : Nat) (now : Int)
    (isoOf : Int → String) (hl : 1 ≤ limit) (hp : 1 ≤ page) :
    (getPublicPosts limit page now isoOf).data =
      ((samplePosts now isoOf).drop ((page - 1) * limit)).take limit ∧
    (samplePosts now isoOf).length = 5 ∧
    (getPublicPosts limit page now isoOf).meta.totalCount = 5 ∧
    (getPublicPosts limit page now isoOf).meta.pageCount = (5 + limit - 1) / limit ∧
    ((getPublicPosts limit page now isoOf).meta.isFirstPage = true ↔ page = 1) ∧
    ((getPublicPosts limit page now isoOf).meta.isLastPage = true ↔
      (5 + limit - 1) / limit ≤ page) ∧
    (getPublicPosts limit page now isoOf).meta.previousPage =
      (if 1 < page then some (page - 1) else none) ∧
    (getPublicPosts limit page now isoOf).meta.nextPage =
      (if page < (5 + limit - 1) / limit then some (page + 1) else none) ∧
    (getPublicPosts limit page now isoOf).meta.currentPage = page := by
  refine ⟨rfl, rfl, rfl, rfl, ?_, ?_, rfl, rfl, rfl⟩
  · exact beq_iff_eq
  · exact decide_eq_true_iff

/-- Witness for C10 at limit 2, page 2: the second page holds posts 3–4
and the page count is 3. -/
theorem claim_C10_witness :
    (getPublicPosts 2 2 0 (fun _ => "iso")).data =
      ((samplePosts 0 (fun _ => "iso")).drop 2).take 2 ∧
    (getPublicPosts 2 2 0 (fun _ => "iso")).meta.pageCount = 3 := by
  have h := claim_C10_get_public_posts 2 2 0 (fun _ => "iso") (by decide) (by decide)
  exact ⟨h.1, h.2.2.2.1⟩
